import Mathlib

/-!
Verification of the natural-language specification of the
learning-deep-learning repository (two seminar notebooks:
04_dense/seminar_photo2map.ipynb and
05_generative/seminar_neural_style_transfer.ipynb)
against a shallow embedding of their code.
-/

namespace LDL

/-! ### String utilities for textual claims over the notebook sources -/

/-- Boolean test that `pat` is a prefix of `l`, on character lists. -/
def charsPre : List Char → List Char → Bool
  | [], _ => true
  | _ :: _, [] => false
  | a :: as, b :: bs => a == b && charsPre as bs

/-- Boolean test that `pat` occurs as a contiguous sublist of `l`. -/
def charsOcc (pat : List Char) : List Char → Bool
  | [] => charsPre pat []
  | c :: cs => charsPre pat (c :: cs) || charsOcc pat cs

/-- Boolean test that string `pat` occurs as a substring of `s`. -/
def strOcc (pat s : String) : Bool := charsOcc pat.toList s.toList

/-- The lines of `ls` in which `pat` occurs as a substring, in order. -/
def linesWith (pat : String) (ls : List String) : List String :=
  ls.filter (fun l => strOcc pat l)

/-- Every line of every code cell of src/04_dense/seminar_photo2map.ipynb, in order. -/
def photoMapCode : List String := [
  "# ! wget https://people.eecs.berkeley.edu/~tinghuiz/projects/pix2pix/datasets/maps.tar.gz",
  "# ! tar -xzvf maps.tar.gz",
  "# ! mkdir maps/train/0 && mv maps/train/*.jpg maps/train/0",
  "# ! mkdir maps/val/0 && mv maps/val/*.jpg maps/val/0",
  "import os",
  "import numpy as np",
  "",
  "%matplotlib inline",
  "import matplotlib.pyplot as plt",
  "# from tqdm.notebook import tqdm    # run this in Colab",
  "from tqdm import tqdm               # or this in Jupyter instead",
  "",
  "import torch",
  "from torch import nn",
  "from torch.utils.data import DataLoader",
  "",
  "import torchvision",
  "from torchvision import transforms",
  "experiment_title = \"unet\"",
  "",
  "device = torch.device(\"cuda\") if torch.cuda.is_available() else torch.device(\"cpu\")",
  "",
  "batch_size = 4",
  "image_size = 256",
  "",
  "data_dir = \"./maps\"",
  "",
  "transform = transforms.Compose([",
  "    transforms.Resize(size=image_size),",
  "    transforms.ToTensor(),",
  "    transforms.Normalize(mean=[0.5, 0.5, 0.5], std=[0.5, 0.5, 0.5]),    # converts input image to [-1, 1]",
  "])",
  "train_dataset = torchvision.datasets.ImageFolder(os.path.join(data_dir, \"train\"), transform=transform)",
  "train_dataloader = DataLoader(train_dataset, batch_size=batch_size, shuffle=True, num_workers=2)",
  "from einops import rearrange    # do \"!pip install einops\" in case einops is not installed",
  "",
  "def imshow(img):",
  "    img = img / 2 + 0.5  # unnormalize to [0, 1]",
  "    img = img.cpu().numpy()",
  "    ",
  "#     img_reshaped = np.transpose(img, (1, 2, 0))     # torch returns an image of shape (3, H, W), you need to convert it to (H, W, 3)",
  "",
  "    # instead, below we use einops.rearrange. You can read about this neat library here: https://github.com/arogozhnikov/einops/blob/master/docs/1-einops-basics.ipynb",
  "    img_reshaped = rearrange(img, \x27c h w -> h w c\x27)",
  "    ",
  "    plt.imshow(img_reshaped)",
  "    plt.show()",
  "(image, _) = train_dataset[0]",
  "imshow(image)",
  "class PhotoMapDataset(torchvision.datasets.ImageFolder):",
  "    def __getitem__(self, index):",
  "        path, _ = self.samples[index]",
  "        sample = self.loader(path)",
  "        ",
  "        if self.transform is not None:",
  "            sample = self.transform(sample)",
  "            ",
  "        # sample will be of shape (3, H, W)",
  "        ",
  "        photo_image, map_image = # your code here ",
  "        ",
  "        return photo_image, map_image",
  "train_dataset = PhotoMapDataset(root=os.path.join(data_dir, \"train\"), transform=transform)",
  "train_dataloader = DataLoader(train_dataset, batch_size=batch_size, shuffle=True, num_workers=2)",
  "photo_image, map_image = train_dataset[0]",
  "imshow(photo_image)",
  "imshow(map_image)",
  "import torch",
  "import torch.nn as nn",
  "import torch.nn.functional as F",
  "# UNetDownBlock: Conv + ReLU + Conv + ReLU [+ MaxPool]",
  "",
  "class UnetDownBlock(nn.Module):",
  "    def __init__(self, in_channels, out_channels, pooling=True):",
  "        super().__init__()",
  "        ",
  "        # your code here",
  "        ",
  "    def forward(self, x):",
  "        ",
  "        # your code here",
  "        ",
  "        return x, x_before_pooling",
  "# UNetUpBlock: upsampling + concat + Conv + ReLU",
  "",
  "class UnetUpBlock(nn.Module):",
  "    def __init__(self, in_channels, out_channels):",
  "        super().__init__()",
  "        ",
  "        # your code here",
  "        ",
  "    def forward(self, x, x_bridge):",
  "        ",
  "        # your code here",
  "        ",
  "        return x",
  "class Unet(nn.Module):",
  "    def __init__(self, in_channels, out_channels, depth=3, base_n_filters=64):",
  "        super().__init__()",
  "        ",
  "        # your code here",
  "        ",
  "    def forward(self, x):",
  "        ",
  "        # your code here",
  "        ",
  "        return x",
  "    ",
  "    def __repr__(self):",
  "        message = \x27\x7b\x7d(in_channels=\x7b\x7d, out_channels=\x7b\x7d, depth=\x7b\x7d, base_n_filters=\x7b\x7d)\x27.format(",
  "            self.__class__.__name__,",
  "            self.in_channels, self.out_channels, self.depth, self.base_n_filters",
  "        )",
  "        return message",
  "model = Unet(3, 3, depth=4, base_n_filters=64).to(device)",
  "model",
  "criterion = nn.MSELoss()",
  "opt = torch.optim.Adam(model.parameters(), lr=0.0002)",
  "from torch.utils.tensorboard import SummaryWriter",
  "from datetime import datetime",
  "",
  "experiment_name = \"\x7b\x7d@\x7b\x7d\".format(experiment_title, datetime.now().strftime(\"%d.%m.%Y-%H:%M:%S\"))",
  "print(\x27experiment_name:\x27, experiment_name)",
  "writer = SummaryWriter(log_dir=os.path.join(\"./tb\", experiment_name))",
  "# you might want to create valid_dataset and valid_dataloader here (see Task 3 below)",
  "n_epochs = 25",
  "",
  "for epoch in range(n_epochs):",
  "    model.train()",
  "    n_iters = 0",
  "    for batch in tqdm(train_dataloader):",
  "",
  "        # unpack batch",
  "        photo_image_batch, map_image_batch = batch",
  "        photo_image_batch, map_image_batch = photo_image_batch.to(device), map_image_batch.to(device)",
  "        ",
  "        # forward",
  "        map_image_pred_batch = model(photo_image_batch)",
  "",
  "        loss = criterion(map_image_pred_batch, map_image_batch)",
  "        ",
  "        # optimize",
  "        opt.zero_grad()",
  "        loss.backward()",
  "        opt.step()",
  "        ",
  "        # dump statistics",
  "        writer.add_scalar(\"train/loss\", loss.item(), global_step=epoch * len(train_dataloader) + n_iters)",
  "        ",
  "        if n_iters % 50 == 0:",
  "            writer.add_image(\x27train/photo_image\x27, torchvision.utils.make_grid(photo_image_batch) * 0.5 + 0.5, ",
  "                             epoch * len(train_dataloader) + n_iters)",
  "            writer.add_image(\x27train/map_image_pred\x27, torchvision.utils.make_grid(map_image_pred_batch), ",
  "                             epoch * len(train_dataloader) + n_iters)",
  "            writer.add_image(\x27train/map_image_gt\x27, torchvision.utils.make_grid(map_image_batch), ",
  "                             epoch * len(train_dataloader) + n_iters)",
  "        ",
  "        n_iters += 1",
  "    ",
  "    # YOUR CODE HERE",
  "    ",
  "    print(\"Epoch \x7b\x7d done.\".format(epoch))",
  "# %load_ext tensorboard",
  "# logs_dir = os.path.join(\"./tb\", experiment_name)",
  "# %tensorboard --logdir \x7blogs_dir\x7d"
]

/-- Every line of every code cell of src/05_generative/seminar_neural_style_transfer.ipynb, in order. -/
def styleTransferCode : List String := [
  "from __future__ import print_function",
  "",
  "import torch",
  "import torch.nn as nn",
  "import torch.nn.functional as F",
  "import torch.optim as optim",
  "",
  "from PIL import Image",
  "",
  "%matplotlib inline",
  "import matplotlib",
  "from matplotlib import pylab as plt",
  "plt.rcParams[\x27figure.figsize\x27] = (15, 15)",
  "",
  "import torchvision.transforms as transforms",
  "import torchvision.models as models",
  "",
  "import copy",
  "device = torch.device(\"cuda\" if torch.cuda.is_available() else \"cpu\")",
  "style_image_path = \"./data/starry-night.jpg\"",
  "content_image_path = \"./data/amsterdam.jpg\"",
  "# desired size of the output image",
  "imsize = 512 if torch.cuda.is_available() else 128  # use small size if no gpu",
  "",
  "image_transform_fn = transforms.Compose([",
  "    transforms.Resize((imsize, imsize)),  # scale imported image",
  "    transforms.ToTensor()  # transform it into a torch tensor",
  "])",
  "",
  "",
  "def image_loader(image_name):",
  "    image = Image.open(image_name)",
  "    ",
  "    # fake batch dimension required to fit network\x27s input dimensions",
  "    image = image_transform_fn(image).unsqueeze(0)",
  "    return image.to(device, torch.float)",
  "",
  "",
  "style_image = image_loader(style_image_path)",
  "content_image = image_loader(content_image_path)",
  "",
  "assert style_image.size() == content_image.size(), \\",
  "    \"we need to import style and content images of the same size\"",
  "def imshow(tensor, title=None):",
  "    image = tensor.detach().cpu().numpy()",
  "    image = image.squeeze(0)  # remove the fake batch dimension",
  "    image = image.transpose(1, 2, 0)  # making channel dim last",
  "    ",
  "    plt.imshow(image)",
  "    if title is not None:",
  "        plt.title(title)",
  "",
  "",
  "imshow(style_image, title=\x27Style Image\x27)",
  "plt.show()",
  "",
  "imshow(content_image, title=\x27Content Image\x27)",
  "plt.show()",
  "class Vgg16(torch.nn.Module):",
  "    def __init__(self, requires_grad=False):",
  "        super(Vgg16, self).__init__()",
  "        ",
  "        vgg_pretrained_features = models.vgg16(pretrained=True).features",
  "        ",
  "        self.slice1 = torch.nn.Sequential()",
  "        self.slice2 = torch.nn.Sequential()",
  "        self.slice3 = torch.nn.Sequential()",
  "        self.slice4 = torch.nn.Sequential()",
  "        ",
  "        for x in range(4):",
  "            self.slice1.add_module(str(x), vgg_pretrained_features[x])",
  "        for x in range(4, 9):",
  "            self.slice2.add_module(str(x), vgg_pretrained_features[x])",
  "        for x in range(9, 16):",
  "            self.slice3.add_module(str(x), vgg_pretrained_features[x])",
  "        for x in range(16, 23):",
  "            self.slice4.add_module(str(x), vgg_pretrained_features[x])",
  "            ",
  "        if not requires_grad:",
  "            for param in self.parameters():",
  "                param.requires_grad = False",
  "",
  "    def forward(self, x):",
  "        ## your code here: just forward slice by slice and save intermediate features",
  "        ",
  "        out = \x7b",
  "            \x27relu1_2\x27: x_relu1_2,",
  "            \x27relu2_2\x27: x_relu2_2,",
  "            \x27relu3_3\x27: x_relu3_3,",
  "            \x27relu4_3\x27: x_relu4_3,",
  "        \x7d",
  "        return out",
  "normalization_mean = [0.485, 0.456, 0.406]",
  "normalization_std = [0.229, 0.224, 0.225]",
  "",
  "class Normalization(nn.Module):",
  "    def __init__(self, mean, std):",
  "        super().__init__()",
  "",
  "        self.mean = torch.tensor(mean).view(-1, 1, 1)",
  "        self.std = torch.tensor(std).view(-1, 1, 1)",
  "",
  "    def forward(self, x):",
  "        mean = self.mean.clone().to(x.device)",
  "        std = self.std.clone().to(x.device)",
  "        ",
  "        result = ## your code here",
  "        return result",
  "class ContentLoss(nn.Module):",
  "    def __init__(self):",
  "        super().__init__()",
  "",
  "    def forward(self, pred_features, target_features):",
  "        \"\"\"Calculates content loss of 2 given feature maps",
  "",
  "        Args:",
  "            pred_features (torch tensor of shape (b, c, h, w)): features of input image",
  "            target_features (torch tensor of shape (b, c, h, w)): features of content image",
  "        \"\"\"",
  "        result = ## your code here",
  "        return result",
  "class StyleLoss(nn.Module):",
  "    def __init__(self):",
  "        super().__init__()",
  "",
  "    def forward(self, pred_features, target_features):",
  "        \"\"\"Calculates content loss of 2 given feature maps",
  "",
  "        Args:",
  "            pred_features (torch tensor of shape (b, c, h, w)): features of input image",
  "            target_features (torch tensor of shape (b, c, h, w)): features of content image",
  "        \"\"\"",
  "        ",
  "        pred_gram_matrix = self.gram_matrix(pred_features)",
  "        target_gram_matrix = self.gram_matrix(target_features)",
  "        ",
  "        return F.mse_loss(pred_gram_matrix, target_gram_matrix)",
  "    ",
  "    def gram_matrix(self, features):",
  "        \"\"\"Calculates gram matrix of given feature map",
  "",
  "        Args:",
  "            features (torch tensor of shape (b, c, h, w)): feature map",
  "            ",
  "        Returns:",
  "            gram_matrix (torch tensor of shape (b, c, c)): resulting gram matrix",
  "        \"\"\"",
  "        ",
  "        (b, c, h, w) = features.size()",
  "        features = features.view(b, c, w * h)",
  "        gram_matrix = ## your code here",
  "        ",
  "        return gram_matrix",
  "vgg16 = Vgg16(requires_grad=True).to(device)",
  "vgg16.eval()",
  "normalizer = Normalization(normalization_mean, normalization_std).to(device)",
  "content_criterion = ContentLoss().to(device)",
  "style_criterion = StyleLoss().to(device)",
  "content_loss_layers = [\x27relu2_2\x27]",
  "style_loss_layers = [\x27relu1_2\x27, \x27relu2_2\x27, \x27relu3_3\x27, \x27relu4_3\x27]",
  "input_image = content_image.clone()",
  "input_image.requires_grad_()",
  "",
  "# if you want to use white noise instead uncomment the below line:",
  "# input_image = torch.randn_like(content_image)",
  "",
  "imshow(input_image, title=\x27Input Image\x27)",
  "n_epochs = 200",
  "",
  "# it\x27s very important to tune loss weights",
  "content_weight = 1 ",
  "style_weight = 500000",
  "",
  "content_image_features = ## your code here (don\x27t forget to normalize!)",
  "style_image_features = ## your code here (don\x27t forget to normalize!)",
  "",
  "opt = torch.optim.SGD([input_image], lr=0.1)  # tune lr",
  "",
  "for epoch in range(n_epochs):",
  "    if epoch % 10 == 0:",
  "        print(\"Epoch: \", epoch)",
  "        imshow(torch.clamp(input_image.clone(), 0.0, 1.0), title=\x27Input Image\x27)",
  "        plt.show()",
  "        ",
  "    x = torch.clamp(input_image, 0.0, 1.0)  # clamp image to be in [0.0, 1.0] range",
  "    input_image_features = vgg16(normalizer(x))",
  "    ",
  "    # content loss",
  "    content_loss = 0.0",
  "    for layer in content_loss_layers:",
  "        content_loss += ## your code here (don\x27t forget to .detach() target feature map)",
  "    content_loss = content_loss / len(content_loss_layers)",
  "    ",
  "    # style loss",
  "    style_loss = 0.0",
  "    for layer in style_loss_layers:",
  "        style_loss += ## your code here (don\x27t forget to .detach() target feature map)",
  "    style_loss = style_loss / len(style_loss_layers)",
  "",
  "    # total loss (weighted sum of content and style losses)",
  "    total_loss = ## your code here",
  "    ",
  "    # optimize",
  "    opt.zero_grad()",
  "    total_loss.backward()",
  "    opt.step()",
  "imshow(input_image, title=\x27Result\x27)"
]




/-! ### Claim C1: the PhotoMapDataset wrapper (04_dense/seminar_photo2map.ipynb) -/

/-- An image tensor of shape `(3, H, W)` with rational entries, the embedding of a
torch tensor produced by the dataset transform. -/
def Image (h w : Nat) : Type := Fin 3 → Fin h → Fin w → ℚ

/-- Index of column `j` of the left half inside a side-by-side image of width `2 * w`. -/
def leftHalfIdx {w : Nat} (j : Fin w) : Fin (2 * w) :=
  ⟨j.1, by have := j.2; omega⟩

/-- Index of column `j` of the right half inside a side-by-side image of width `2 * w`. -/
def rightHalfIdx {w : Nat} (j : Fin w) : Fin (2 * w) :=
  ⟨w + j.1, by have := j.2; omega⟩

/-- Modelled from the spec: "a dataset wrapper that splits a side-by-side image into
two halves" — the body of the `photo_image, map_image = # your code here` placeholder
in `PhotoMapDataset.__getitem__`.  The transformed sample of shape `(3, H, W)` with
`W = 2 * w` is split along the width axis: the photo is the left half and the map is
the right half. -/
def splitSideBySide {h w : Nat} (sample : Image h (2 * w)) : Image h w × Image h w :=
  (fun c i j => sample c i (leftHalfIdx j), fun c i j => sample c i (rightHalfIdx j))

/-- The state of a `PhotoMapDataset` (a subclass of `torchvision.datasets.ImageFolder`):
a list of sample paths, a loader from paths to side-by-side images, and an optional
transform, as used by `__getitem__` in the source. -/
structure PhotoMapDataset (h w : Nat) (Path : Type) where
  samples : List Path
  loader : Path → Image h (2 * w)
  transform : Option (Image h (2 * w) → Image h (2 * w))

/-- Embedding of `PhotoMapDataset.__getitem__` from the source: look up the path of
sample `index`, load it, apply the transform when one is set, and split the resulting
`(3, H, W)` sample into the photo and map halves (the split itself is modelled from
the spec, see `splitSideBySide`). -/
def PhotoMapDataset.getitem {h w : Nat} {Path : Type} (d : PhotoMapDataset h w Path)
    (index : Nat) (hidx : index < d.samples.length) : Image h w × Image h w :=
  let sample := d.loader (d.samples.get ⟨index, hidx⟩)
  let sample := match d.transform with
    | some t => t sample
    | none => sample
  splitSideBySide sample

/-! ### Claim C2: StyleLoss and the Gram matrix (05_generative notebook) -/

/-- A feature tensor of shape `(b, c, h, w)` with rational entries. -/
def Tensor4 (b c h w : Nat) : Type := Fin b → Fin c → Fin h → Fin w → ℚ

/-- A tensor of shape `(b, c, n)` with rational entries. -/
def Tensor3 (b c n : Nat) : Type := Fin b → Fin c → Fin n → ℚ

/-- Embedding of `features.view(b, c, w * h)` from `StyleLoss.gram_matrix`: the
row-major flattening of the two spatial axes, so flat index `k` addresses row
`k / w`, column `k % w`. -/
def viewFlatten {b c h w : Nat} (features : Tensor4 b c h w) : Tensor3 b c (w * h) :=
  fun bi ci k =>
    features bi ci ⟨k.1 / w, by have := k.2; exact Nat.div_lt_of_lt_mul this⟩
      ⟨k.1 % w, by
        have hk := k.2
        have hw : 0 < w := by
          rcases Nat.eq_zero_or_pos w with h0 | h0
          · subst h0; simp at hk
          · exact h0
        exact Nat.mod_lt _ hw⟩

/-- Modelled from the spec: "Gram matrix: matrix of pairwise inner products between
feature-map channels" — the `gram_matrix = ## your code here` placeholder in
`StyleLoss.gram_matrix`.  Entry `(bi, i, j)` of the `(b, c, c)` result is the inner
product of the spatially flattened channels `i` and `j` of batch element `bi`. -/
def gram_matrix {b c h w : Nat} (features : Tensor4 b c h w) :
    Fin b → Fin c → Fin c → ℚ :=
  fun bi i j => ∑ k : Fin (w * h), viewFlatten features bi i k * viewFlatten features bi j k

/-- Modelled from the spec: `torch.nn.functional.mse_loss` of the external framework
with its default mean reduction — the mean over all entries of the squared
elementwise difference of two `(b, c, c)` tensors. -/
def mse_loss {b c : Nat} (x y : Fin b → Fin c → Fin c → ℚ) : ℚ :=
  (∑ bi : Fin b, ∑ i : Fin c, ∑ j : Fin c, (x bi i j - y bi i j) ^ 2) / (b * c * c)

/-- Embedding of `StyleLoss.forward` from the source: compute the Gram matrices of
both feature tensors and return `F.mse_loss` of the two. -/
def StyleLoss.forward {b c h w : Nat} (pred_features target_features : Tensor4 b c h w) : ℚ :=
  mse_loss (gram_matrix pred_features) (gram_matrix target_features)

/-! ### Claim C3: Vgg16 slicing (05_generative notebook) -/

/-- Embedding of the Python `range(a, b)` iteration order. -/
def pyRange (a b : Nat) : List Nat := List.range' a (b - a)

/-- Indices of the pretrained `features` layers put into `slice1`
(source: `for x in range(4)`). -/
def slice1Layers : List Nat := pyRange 0 4

/-- Indices of the pretrained `features` layers put into `slice2`
(source: `for x in range(4, 9)`). -/
def slice2Layers : List Nat := pyRange 4 9

/-- Indices of the pretrained `features` layers put into `slice3`
(source: `for x in range(9, 16)`). -/
def slice3Layers : List Nat := pyRange 9 16

/-- Indices of the pretrained `features` layers put into `slice4`
(source: `for x in range(16, 23)`). -/
def slice4Layers : List Nat := pyRange 16 23

/-- Run an input through the listed layers of the pretrained `features` sequence in
order, the embedding of applying one `torch.nn.Sequential` slice.  The layers
themselves are abstract functions `layers i : A → A`. -/
def runSlice {A : Type} (layers : Nat → A → A) (idxs : List Nat) (x : A) : A :=
  idxs.foldl (fun acc i => layers i acc) x

/-- Embedding of `Vgg16.forward`.  The slice contents are from the source
(`slice1Layers` … `slice4Layers`); the body is modelled from the spec: the
`## your code here: just forward slice by slice and save intermediate features`
placeholder forwards the input through slice1..slice4 in sequence and the `out`
dictionary returns the four intermediate activations, keyed
`relu1_2`, `relu2_2`, `relu3_3`, `relu4_3`. -/
def Vgg16.forward {A : Type} (layers : Nat → A → A) (x : A) : A × A × A × A :=
  let x_relu1_2 := runSlice layers slice1Layers x
  let x_relu2_2 := runSlice layers slice2Layers x_relu1_2
  let x_relu3_3 := runSlice layers slice3Layers x_relu2_2
  let x_relu4_3 := runSlice layers slice4Layers x_relu3_3
  (x_relu1_2, x_relu2_2, x_relu3_3, x_relu4_3)


/-! ### Claim C4: optimizer frame property (both notebooks) -/

/-- Modelled from the spec: a gradient-descent optimizer of the external framework
(`torch.optim.SGD`, `torch.optim.Adam`) is constructed over a list of parameter
names and its `step` writes back only to those parameters; every tensor not in the
list is left untouched.  `upd` abstracts the per-parameter update rule (learning
rate, gradient and any internal optimizer state). -/
def optimStep {A : Type} (params : List String) (upd : String → A → A)
    (state : String → A) : String → A :=
  fun n => if n ∈ params then upd n (state n) else state n

/-- Embedding of `opt = torch.optim.SGD([input_image], lr=0.1)` from the style
transfer loop: the optimizer is constructed over the input image alone. -/
def styleOptParams : List String := ["input_image"]

/-! ### Claim C8: image_loader shape semantics (05_generative notebook) -/

/-- The shape of a PIL image: number of channels, height, width. -/
structure PILImage where
  channels : Nat
  height : Nat
  width : Nat
deriving DecidableEq

/-- Shape semantics of `transforms.Resize((imsize, imsize))` from the source: both
spatial dimensions are scaled to `imsize`; the channels are untouched. -/
def resizeShape (imsize : Nat) (img : PILImage) : PILImage :=
  ⟨img.channels, imsize, imsize⟩

/-- Shape semantics of `transforms.ToTensor()`: a PIL image with `c` channels
becomes a `(c, h, w)` tensor. -/
def toTensorShape (img : PILImage) : Nat × Nat × Nat :=
  (img.channels, img.height, img.width)

/-- Shape semantics of `.unsqueeze(0)`: prepend a batch dimension of size 1. -/
def unsqueezeShape (s : Nat × Nat × Nat) : Nat × Nat × Nat × Nat :=
  (1, s.1, s.2.1, s.2.2)

/-- Embedding of `image_loader` from the source at the level of tensor shapes:
open the image, apply `image_transform_fn` (Resize then ToTensor), and add the
fake batch dimension with `unsqueeze(0)`. -/
def image_loader_shape (imsize : Nat) (img : PILImage) : Nat × Nat × Nat × Nat :=
  unsqueezeShape (toTensorShape (resizeShape imsize img))

/-! ### Claim C9: Normalize and its inverse in imshow (04_dense notebook) -/

/-- Per-channel mean of `transforms.Normalize(mean=[0.5, 0.5, 0.5], ...)`. -/
def pmMean : Fin 3 → ℚ := fun _ => 1 / 2

/-- Per-channel std of `transforms.Normalize(..., std=[0.5, 0.5, 0.5])`. -/
def pmStd : Fin 3 → ℚ := fun _ => 1 / 2

/-- Pixel semantics of `transforms.Normalize`: subtract the channel mean and divide
by the channel std. -/
def normalizePixel (c : Fin 3) (p : ℚ) : ℚ := (p - pmMean c) / pmStd c

/-- Embedding of the unnormalization `img = img / 2 + 0.5` performed by `imshow`
in the photo2map notebook. -/
def unnormalizePixel (q : ℚ) : ℚ := q / 2 + 1 / 2

/-! ### Claim C10: global_step values logged by the train loop (04_dense notebook) -/

/-- Embedding of one epoch of the photo2map train loop, restricted to the logging
state: `n_iters` starts at 0, each of the `L` batches logs
`global_step = epoch * L + n_iters` via `writer.add_scalar` and then increments
`n_iters`.  Returns the list of logged steps of the epoch and the final `n_iters`. -/
def epochLog (L e : Nat) : List Nat × Nat :=
  (List.range L).foldl (fun st _ => (st.1 ++ [e * L + st.2], st.2 + 1)) ([], 0)

/-- Embedding of the full train loop of the photo2map notebook, restricted to the
scalar-logging state: `E` epochs (`for epoch in range(n_epochs)`), each running
`epochLog` over the `L` batches of `train_dataloader`.  Returns all logged
`global_step` values in order. -/
def trainLogSteps (E L : Nat) : List Nat :=
  (List.range E).foldl (fun acc e => acc ++ (epochLog L e).1) []


/-! ### Claims C5 and C7: per-operation source slices -/

/-- The source lines of `PhotoMapDataset.__getitem__` (with its class line), a contiguous slice of `photoMapCode`. -/
def getitemSrc : List String := [
  "class PhotoMapDataset(torchvision.datasets.ImageFolder):",
  "    def __getitem__(self, index):",
  "        path, _ = self.samples[index]",
  "        sample = self.loader(path)",
  "        ",
  "        if self.transform is not None:",
  "            sample = self.transform(sample)",
  "            ",
  "        # sample will be of shape (3, H, W)",
  "        ",
  "        photo_image, map_image = # your code here ",
  "        ",
  "        return photo_image, map_image"
]

/-- The source lines of `UnetDownBlock`, a contiguous slice of `photoMapCode`. -/
def unetDownBlockSrc : List String := [
  "class UnetDownBlock(nn.Module):",
  "    def __init__(self, in_channels, out_channels, pooling=True):",
  "        super().__init__()",
  "        ",
  "        # your code here",
  "        ",
  "    def forward(self, x):",
  "        ",
  "        # your code here",
  "        ",
  "        return x, x_before_pooling"
]

/-- The source lines of `UnetUpBlock`, a contiguous slice of `photoMapCode`. -/
def unetUpBlockSrc : List String := [
  "class UnetUpBlock(nn.Module):",
  "    def __init__(self, in_channels, out_channels):",
  "        super().__init__()",
  "        ",
  "        # your code here",
  "        ",
  "    def forward(self, x, x_bridge):",
  "        ",
  "        # your code here",
  "        ",
  "        return x"
]

/-- The source lines of `Unet`, a contiguous slice of `photoMapCode`. -/
def unetSrc : List String := [
  "class Unet(nn.Module):",
  "    def __init__(self, in_channels, out_channels, depth=3, base_n_filters=64):",
  "        super().__init__()",
  "        ",
  "        # your code here",
  "        ",
  "    def forward(self, x):",
  "        ",
  "        # your code here",
  "        ",
  "        return x",
  "    ",
  "    def __repr__(self):",
  "        message = \x27\x7b\x7d(in_channels=\x7b\x7d, out_channels=\x7b\x7d, depth=\x7b\x7d, base_n_filters=\x7b\x7d)\x27.format(",
  "            self.__class__.__name__,",
  "            self.in_channels, self.out_channels, self.depth, self.base_n_filters",
  "        )",
  "        return message"
]

/-- The source lines of `Vgg16.forward`, a contiguous slice of `styleTransferCode`. -/
def vgg16ForwardSrc : List String := [
  "    def forward(self, x):",
  "        ## your code here: just forward slice by slice and save intermediate features",
  "        ",
  "        out = \x7b",
  "            \x27relu1_2\x27: x_relu1_2,",
  "            \x27relu2_2\x27: x_relu2_2,",
  "            \x27relu3_3\x27: x_relu3_3,",
  "            \x27relu4_3\x27: x_relu4_3,",
  "        \x7d",
  "        return out"
]

/-- The source lines of `Normalization.forward`, a contiguous slice of `styleTransferCode`. -/
def normalizationForwardSrc : List String := [
  "    def forward(self, x):",
  "        mean = self.mean.clone().to(x.device)",
  "        std = self.std.clone().to(x.device)",
  "        ",
  "        result = ## your code here",
  "        return result"
]

/-- The source lines of `ContentLoss.forward`, a contiguous slice of `styleTransferCode`. -/
def contentLossForwardSrc : List String := [
  "    def forward(self, pred_features, target_features):",
  "        \"\"\"Calculates content loss of 2 given feature maps",
  "",
  "        Args:",
  "            pred_features (torch tensor of shape (b, c, h, w)): features of input image",
  "            target_features (torch tensor of shape (b, c, h, w)): features of content image",
  "        \"\"\"",
  "        result = ## your code here",
  "        return result"
]

/-- The source lines of `StyleLoss.gram_matrix`, a contiguous slice of `styleTransferCode`. -/
def styleGramMatrixSrc : List String := [
  "    def gram_matrix(self, features):",
  "        \"\"\"Calculates gram matrix of given feature map",
  "",
  "        Args:",
  "            features (torch tensor of shape (b, c, h, w)): feature map",
  "            ",
  "        Returns:",
  "            gram_matrix (torch tensor of shape (b, c, c)): resulting gram matrix",
  "        \"\"\"",
  "        ",
  "        (b, c, h, w) = features.size()",
  "        features = features.view(b, c, w * h)",
  "        gram_matrix = ## your code here",
  "        ",
  "        return gram_matrix"
]

/-- The loss-accumulation lines of the style-transfer optimization loop, a contiguous slice of `styleTransferCode`. -/
def transferLoopLossSrc : List String := [
  "    # content loss",
  "    content_loss = 0.0",
  "    for layer in content_loss_layers:",
  "        content_loss += ## your code here (don\x27t forget to .detach() target feature map)",
  "    content_loss = content_loss / len(content_loss_layers)",
  "    ",
  "    # style loss",
  "    style_loss = 0.0",
  "    for layer in style_loss_layers:",
  "        style_loss += ## your code here (don\x27t forget to .detach() target feature map)",
  "    style_loss = style_loss / len(style_loss_layers)",
  "",
  "    # total loss (weighted sum of content and style losses)",
  "    total_loss = ## your code here"
]

/-! ### Concrete instances used by witnesses -/

/-- A concrete transform on side-by-side 1x2 images: add 1 to every pixel. -/
def exTransform : Image 1 (2 * 1) → Image 1 (2 * 1) :=
  fun img c i j => img c i j + 1

/-- A concrete one-sample dataset: the sample image has pixel value `c + 10 * j`
at channel `c`, column `j`, and the transform `exTransform` is set. -/
def exampleDS : PhotoMapDataset 1 1 Unit where
  samples := [()]
  loader := fun _ => fun c _ j => (c.1 : ℚ) + 10 * (j.1 : ℚ)
  transform := some exTransform


/-! ## Theorems -/

/-- Claim C1: for every valid index `index`, `PhotoMapDataset.__getitem__` loads the
sample at that index, applies the transform when one is set, and returns a pair
`(photo_image, map_image)` that are respectively the left half and the right half,
along the width axis, of the transformed side-by-side `(3, H, W)` image. -/
theorem photoMap_getitem_halves {h w : Nat} {Path : Type} (d : PhotoMapDataset h w Path)
    (index : Nat) (hidx : index < d.samples.length)
    (t : Image h (2 * w) → Image h (2 * w)) (ht : d.transform = some t)
    (c : Fin 3) (i : Fin h) (j : Fin w) :
    (d.getitem index hidx).1 c i j
        = t (d.loader (d.samples.get ⟨index, hidx⟩)) c i (leftHalfIdx j)
  ∧ (d.getitem index hidx).2 c i j
        = t (d.loader (d.samples.get ⟨index, hidx⟩)) c i (rightHalfIdx j) := by
  simp [PhotoMapDataset.getitem, splitSideBySide, ht]

/-- Witness for C1: the theorem applied to the concrete one-sample dataset
`exampleDS` at index 0, channel 0, row 0, column 0. -/
theorem photoMap_getitem_halves_witness :
    (exampleDS.getitem 0 (by decide)).1 0 0 0
        = exTransform (exampleDS.loader (exampleDS.samples.get ⟨0, by decide⟩)) 0 0 (leftHalfIdx 0)
  ∧ (exampleDS.getitem 0 (by decide)).2 0 0 0
        = exTransform (exampleDS.loader (exampleDS.samples.get ⟨0, by decide⟩)) 0 0 (rightHalfIdx 0) :=
  photoMap_getitem_halves exampleDS 0 (by decide) exTransform rfl 0 0 0

/-- Claim C2: for all feature tensors of equal shape `(b, c, h, w)`,
`StyleLoss.forward` equals the mean-squared error between the Gram matrices of the
two tensors, where the Gram matrix maps a `(b, c, h, w)` tensor to the `(b, c, c)`
tensor of pairwise inner products between the spatially flattened channels. -/
theorem styleLoss_forward_mse_gram {b c h w : Nat}
    (pred_features target_features : Tensor4 b c h w) :
    StyleLoss.forward pred_features target_features
        = (∑ bi : Fin b, ∑ i : Fin c, ∑ j : Fin c,
            ((∑ k : Fin (w * h),
                viewFlatten pred_features bi i k * viewFlatten pred_features bi j k)
              - ∑ k : Fin (w * h),
                  viewFlatten target_features bi i k * viewFlatten target_features bi j k) ^ 2)
          / (b * c * c)
  ∧ (∀ (bi : Fin b) (i j : Fin c),
      gram_matrix pred_features bi i j
        = ∑ k : Fin (w * h),
            viewFlatten pred_features bi i k * viewFlatten pred_features bi j k) :=
  ⟨rfl, fun _ _ _ => rfl⟩

/-- Claim C3: `Vgg16.__init__` slices the pretrained features sequence at the fixed
depths 4, 9, 16 and 23 — slice1 holds layers 0-3, slice2 layers 4-8, slice3 layers
9-15 and slice4 layers 16-22, so the four slices concatenate to the layer indices
0 through 22, each appearing exactly once and in the original order — and
`Vgg16.forward` returns the four intermediate activations `relu1_2`, `relu2_2`,
`relu3_3`, `relu4_3` obtained by running the input through the slices in sequence,
that is, through the layer prefixes of depth 4, 9, 16 and 23. -/
theorem vgg16_slices_and_forward {A : Type} (layers : Nat → A → A) (x : A) :
    slice1Layers = [0, 1, 2, 3]
  ∧ slice2Layers = [4, 5, 6, 7, 8]
  ∧ slice3Layers = [9, 10, 11, 12, 13, 14, 15]
  ∧ slice4Layers = [16, 17, 18, 19, 20, 21, 22]
  ∧ slice1Layers ++ slice2Layers ++ slice3Layers ++ slice4Layers = List.range 23
  ∧ (Vgg16.forward layers x).1 = runSlice layers (List.range 4) x
  ∧ (Vgg16.forward layers x).2.1 = runSlice layers (List.range 9) x
  ∧ (Vgg16.forward layers x).2.2.1 = runSlice layers (List.range 16) x
  ∧ (Vgg16.forward layers x).2.2.2 = runSlice layers (List.range 23) x :=
  ⟨by decide, by decide, by decide, by decide, by decide, rfl, rfl, rfl, rfl⟩


/-- Claim C4: because the SGD optimizer of the style-transfer loop is constructed
over `[input_image]` alone, every parameter of the Vgg16 feature extractor and of
the normalizer is unchanged by every `opt.step()`; symmetrically, because the Adam
optimizer of the photo2map train loop is constructed over `model.parameters()` only,
every tensor outside the model parameters — in particular the batch tensors — is
unchanged by every `opt.step()`. -/
theorem optimizer_updates_only_its_params {A : Type}
    (vggAndNormParams : List String) (hv : "input_image" ∉ vggAndNormParams)
    (upd : String → A → A) (state : String → A) (n : String) (hn : n ∈ vggAndNormParams)
    (modelParams : List String) (upd2 : String → A → A) (state2 : String → A)
    (m : String) (hm : m ∉ modelParams) :
    optimStep styleOptParams upd state n = state n
  ∧ optimStep modelParams upd2 state2 m = state2 m := by
  constructor
  · have hns : n ∉ styleOptParams := by
      simp only [styleOptParams, List.mem_singleton]
      intro h
      exact hv (h ▸ hn)
    simp [optimStep, hns]
  · simp [optimStep, hm]

/-- Witness for C4: the theorem applied to a concrete two-name parameter set for the
feature extractor and normalizer, a concrete one-name model parameter list, and a
batch tensor name outside it. -/
theorem optimizer_updates_only_its_params_witness :
    optimStep styleOptParams (fun _ v => v + 1) (fun _ => (0 : ℚ)) "slice1.0.weight" = 0
  ∧ optimStep ["conv.weight"] (fun _ v => v + 1) (fun _ => (0 : ℚ)) "photo_image_batch" = 0 :=
  optimizer_updates_only_its_params ["slice1.0.weight", "normalizer.mean"] (by decide)
    (fun _ v => v + 1) (fun _ => (0 : ℚ)) "slice1.0.weight" (by decide)
    ["conv.weight"] (fun _ v => v + 1) (fun _ => (0 : ℚ)) "photo_image_batch" (by decide)

set_option maxRecDepth 100000 in
/-- Counterexample to claim C5 as stated: the claim says no code path in the
repository asserts a repository-defined error condition, but the style-transfer
notebook contains the line
`assert style_image.size() == content_image.size(), \` —
so the list of assert lines of that notebook is not empty. -/
theorem styleTransfer_has_assert_line :
    ¬ linesWith "assert" styleTransferCode = [] := by decide

set_option maxRecDepth 100000 in
/-- Claim C5 (amended): the notebooks implement no error taxonomy, retry logic, or
recovery behavior of their own — no code path raises or catches an exception (no
`raise`, no `try`, no `except` occurs in any code cell) — and the single
repository-defined assertion is the size-equality assert of the style-transfer
notebook; the photo2map notebook contains no assert at all. -/
theorem notebooks_error_handling :
    linesWith "raise" (photoMapCode ++ styleTransferCode) = []
  ∧ linesWith "except" (photoMapCode ++ styleTransferCode) = []
  ∧ linesWith "try" (photoMapCode ++ styleTransferCode) = []
  ∧ linesWith "assert" photoMapCode = []
  ∧ linesWith "assert" styleTransferCode =
      [ "assert style_image.size() == content_image.size(), \\" ] := by
  refine ⟨by decide, by decide, by decide, by decide, by decide⟩

set_option maxRecDepth 100000 in
/-- Claim C7: every student-task operation in both notebooks is a fill-in-the-blank
skeleton — `PhotoMapDataset.__getitem__`, `UnetDownBlock`, `UnetUpBlock`, `Unet`,
`Vgg16.forward`, `Normalization.forward`, `ContentLoss.forward`,
`StyleLoss.gram_matrix` and the loss accumulation of the transfer loop are each a
contiguous slice of the corresponding notebook source and each contains a
`your code here` placeholder in place of the implementation. -/
theorem student_task_placeholders :
    (getitemSrc <:+: photoMapCode ∧ linesWith "your code here" getitemSrc ≠ [])
  ∧ (unetDownBlockSrc <:+: photoMapCode ∧ linesWith "your code here" unetDownBlockSrc ≠ [])
  ∧ (unetUpBlockSrc <:+: photoMapCode ∧ linesWith "your code here" unetUpBlockSrc ≠ [])
  ∧ (unetSrc <:+: photoMapCode ∧ linesWith "your code here" unetSrc ≠ [])
  ∧ (vgg16ForwardSrc <:+: styleTransferCode
      ∧ linesWith "your code here" vgg16ForwardSrc ≠ [])
  ∧ (normalizationForwardSrc <:+: styleTransferCode
      ∧ linesWith "your code here" normalizationForwardSrc ≠ [])
  ∧ (contentLossForwardSrc <:+: styleTransferCode
      ∧ linesWith "your code here" contentLossForwardSrc ≠ [])
  ∧ (styleGramMatrixSrc <:+: styleTransferCode
      ∧ linesWith "your code here" styleGramMatrixSrc ≠ [])
  ∧ (transferLoopLossSrc <:+: styleTransferCode
      ∧ linesWith "your code here" transferLoopLossSrc ≠ []) := by
  refine ⟨⟨by decide, by decide⟩, ⟨by decide, by decide⟩, ⟨by decide, by decide⟩,
    ⟨by decide, by decide⟩, ⟨by decide, by decide⟩, ⟨by decide, by decide⟩,
    ⟨by decide, by decide⟩, ⟨by decide, by decide⟩, ⟨by decide, by decide⟩⟩


/-- Claim C8: `image_loader` resizes every input image to `(imsize, imsize)` and
prepends a batch dimension, so every image with `c` channels loads to a tensor of
size `(1, c, imsize, imsize)`; two images with the same channel count load to equal
sizes — so the size-equality assertion holds — and the loaded sizes are equal
exactly when the channel counts are, so the assertion can fail only when the two
images differ in channel count. -/
theorem image_loader_size_agree (imsize : Nat) (img1 img2 : PILImage) :
    image_loader_shape imsize img1 = (1, img1.channels, imsize, imsize)
  ∧ (img1.channels = img2.channels →
      image_loader_shape imsize img1 = image_loader_shape imsize img2)
  ∧ (image_loader_shape imsize img1 = image_loader_shape imsize img2 ↔
      img1.channels = img2.channels) := by
  refine ⟨rfl, ?_, ?_⟩
  · intro hc
    simp [image_loader_shape, unsqueezeShape, toTensorShape, resizeShape, hc]
  · simp [image_loader_shape, unsqueezeShape, toTensorShape, resizeShape]

/-- Witness for C8: the theorem applied to two concrete 3-channel images of
different spatial sizes at `imsize = 128`. -/
theorem image_loader_size_agree_witness :
    image_loader_shape 128 ⟨3, 600, 800⟩ = image_loader_shape 128 ⟨3, 512, 512⟩ :=
  (image_loader_size_agree 128 ⟨3, 600, 800⟩ ⟨3, 512, 512⟩).2.1 rfl

/-- Claim C9: the unnormalization `img / 2 + 0.5` performed by `imshow` is the exact
inverse of the `Normalize(mean=[0.5, 0.5, 0.5], std=[0.5, 0.5, 0.5])` step of the
dataset transform: for every pixel value `p` in `[0, 1]`, normalizing then
unnormalizing returns `p`, and every normalized value `q` in `[-1, 1]` is mapped
back into `[0, 1]`. -/
theorem unnormalize_inverts_normalize (c : Fin 3) (p q : ℚ)
    (hp0 : 0 ≤ p) (hp1 : p ≤ 1) (hq0 : -1 ≤ q) (hq1 : q ≤ 1) :
    unnormalizePixel (normalizePixel c p) = p
  ∧ 0 ≤ unnormalizePixel q ∧ unnormalizePixel q ≤ 1 := by
  refine ⟨?_, ?_, ?_⟩
  · unfold unnormalizePixel normalizePixel pmMean pmStd
    ring
  · unfold unnormalizePixel
    linarith
  · unfold unnormalizePixel
    linarith

/-- Witness for C9: the theorem applied to channel 0, pixel value 1/4 and
normalized value 1/2. -/
theorem unnormalize_inverts_normalize_witness :
    unnormalizePixel (normalizePixel 0 (1 / 4)) = 1 / 4
  ∧ 0 ≤ unnormalizePixel (1 / 2) ∧ unnormalizePixel (1 / 2) ≤ 1 :=
  unnormalize_inverts_normalize 0 (1 / 4) (1 / 2)
    (by norm_num) (by norm_num) (by norm_num) (by norm_num)

/-- Helper: the inner loop of `epochLog`, run from an arbitrary accumulator and
counter, appends the steps `e * L + n, e * L + (n+1), …` and advances the counter
by the number of batches. -/
theorem epochLog_foldl (e L : Nat) (l : List Nat) : ∀ (acc : List Nat) (n : Nat),
    l.foldl (fun st _ => (st.1 ++ [e * L + st.2], st.2 + 1)) (acc, n)
      = (acc ++ (List.range' n l.length).map (fun i => e * L + i), n + l.length) := by
  induction l with
  | nil => intro acc n; simp
  | cons head tail ih =>
    intro acc n
    simp only [List.foldl_cons]
    rw [ih (acc ++ [e * L + n]) (n + 1)]
    simp [List.range'_succ, List.append_assoc]
    omega

/-- Helper: one epoch logs exactly the steps `e * L + i` for `i = 0, …, L - 1`,
and its final `n_iters` is `L`. -/
theorem epochLog_eq (L e : Nat) :
    epochLog L e = ((List.range L).map (fun i => e * L + i), L) := by
  unfold epochLog
  rw [epochLog_foldl]
  simp [List.range_eq_range']

/-- Helper: the full train loop logs exactly the steps `0, 1, …, E * L - 1`. -/
theorem trainLogSteps_eq (E L : Nat) : trainLogSteps E L = List.range (E * L) := by
  induction E with
  | zero => simp [trainLogSteps]
  | succ n ih =>
    unfold trainLogSteps at ih ⊢
    rw [List.range_succ, List.foldl_append, ih]
    simp only [List.foldl_cons, List.foldl_nil, epochLog_eq]
    rw [← List.range_add]
    congr 1
    ring

/-- Claim C10: in the photo2map train loop, the `global_step` values
`epoch * len(train_dataloader) + n_iters` passed to `writer.add_scalar` are
strictly increasing across successive iterations of the entire run (so no two
logged scalars share a step); within each epoch, `n_iters` starts at 0, increments
exactly once per batch — ending at `L = len(train_dataloader)` — and every logged
step of epoch `e` is `e * L + i` with `i < L`. -/
theorem train_global_step_increasing (E L : Nat) :
    List.Pairwise (fun a b => a < b) (trainLogSteps E L)
  ∧ (∀ e, (epochLog L e).2 = L)
  ∧ (∀ e, (epochLog L e).1 = (List.range L).map (fun i => e * L + i)) := by
  refine ⟨?_, ?_, ?_⟩
  · rw [trainLogSteps_eq]
    exact List.pairwise_lt_range (E * L)
  · intro e
    rw [epochLog_eq]
  · intro e
    rw [epochLog_eq]

end LDL
